/-
Verification of the TaxRefundStatusService repository against its
natural-language specification.

The TypeScript service layer (src/service/src) is shallowly embedded as
pure Lean functions over an explicit database state:
  - db-service.ts        -> Database, getTaxFileById, getTaxProcessingEvents,
                            getLatestTaxProcessingEvent, createTaxRefundPrediction
  - ml-integration.ts    -> MLApi, getPrediction, checkMLApiHealth
  - prediction-service.ts-> predictRefundAvailability
  - refund-status-service.ts -> getRefundStatus, getRefundStatusHistory
Asynchrony and the SQLite driver are modelled by explicit state passing;
a thrown-and-caught exception is modelled by the `Except`-shaped inner
body in `predictRefundAvailabilityInner` whose error is converted to
`none` by the catch-all wrapper, exactly as the `try/catch` does.
ISO-8601 timestamp strings are compared lexicographically, which agrees
with SQLite's ordering of TEXT timestamps.

The Python ML pipeline under ml_etl/src (ETL, ModelTrainer,
RetrainingDecisionEngine) is invoked by the shell scripts but its source
is not in the repository; those components are modelled from the spec,
as marked on each definition.
-/
import Mathlib

namespace TaxRefund

/-- Byte-wise lexicographic comparison of character lists, the order SQLite
uses for TEXT columns (memcmp); on ISO-8601 timestamps it coincides with
chronological order. -/
def listLe : List Char → List Char → Bool
  | [], _ => true
  | _ :: _, [] => false
  | a :: as, b :: bs =>
    if a.toNat < b.toNat then true
    else if b.toNat < a.toNat then false
    else listLe as bs

/-- Lexicographic comparison of strings (SQLite TEXT ordering). -/
def strLe (a b : String) : Bool := listLe a.data b.data

/-- A tax filing row, mirroring interface `TaxFile` in db-service.ts. -/
structure TaxFile where
  TaxFileID : String
  UserID : String
  TaxYear : Int
  FilingType : String
  DateOfFiling : String
  TaxCategories : String
  DeductionCategories : String
  ClaimedRefundAmount : Rat
  GeographicRegion : String
  CreatedAt : String
  deriving Repr, DecidableEq

/-- A processing event row, mirroring interface `TaxProcessingEvent` in
db-service.ts.  `OldStatus` and `ActionRequired` are nullable there. -/
structure TaxProcessingEvent where
  EventID : String
  TaxFileID : String
  OldStatus : Option String
  NewStatus : String
  StatusDetails : String
  StatusUpdateDate : String
  UpdateSource : String
  ActionRequired : Option String
  ProcessingCenter : String
  CreatedAt : String
  deriving Repr, DecidableEq

/-- The JSON object built as `inputFeatures` in prediction-service.ts. -/
structure InputFeatures where
  filingType : String
  taxYear : Int
  region : String
  amount : Rat
  deriving Repr, DecidableEq

/-- A stored prediction row, mirroring interface `TaxRefundPrediction` in
db-service.ts (`InputFeatures` is a JSON string there; we keep it
structured). -/
structure TaxRefundPrediction where
  PredictionID : String
  TaxFileID : String
  ConfidenceScore : Rat
  ModelVersion : String
  PredictedAvailabilityDate : String
  InputFeatures : InputFeatures
  CreatedAt : String
  deriving Repr, DecidableEq

/-- The SQLite database state visible to the service layer. -/
structure Database where
  taxFiles : List TaxFile
  events : List TaxProcessingEvent
  predictions : List TaxRefundPrediction
  deriving Repr, DecidableEq

/-- The query `SELECT * FROM TaxFiles WHERE TaxFileID = ?` via `db.get`
(first row). -/
def getTaxFileById (db : Database) (taxFileId : String) : Option TaxFile :=
  db.taxFiles.find? (fun f => f.TaxFileID = taxFileId)

/-- The rows of `TaxProcessingEvents` with the given `TaxFileID`. -/
def eventsFor (db : Database) (taxFileId : String) : List TaxProcessingEvent :=
  db.events.filter (fun e => e.TaxFileID = taxFileId)

/-- The order `ORDER BY StatusUpdateDate ASC` on rows. -/
def eventAsc (a b : TaxProcessingEvent) : Prop :=
  strLe a.StatusUpdateDate b.StatusUpdateDate = true

/-- The order `ORDER BY StatusUpdateDate DESC` on rows. -/
def eventDesc (a b : TaxProcessingEvent) : Prop :=
  strLe b.StatusUpdateDate a.StatusUpdateDate = true

instance : DecidableRel eventAsc :=
  fun _ _ => inferInstanceAs (Decidable (_ = true))

instance : DecidableRel eventDesc :=
  fun _ _ => inferInstanceAs (Decidable (_ = true))

/-- The query `SELECT * FROM TaxProcessingEvents WHERE TaxFileID = ?
ORDER BY StatusUpdateDate ASC` (db-service.ts `getTaxProcessingEvents`). -/
def getTaxProcessingEvents (db : Database) (taxFileId : String) :
    List TaxProcessingEvent :=
  List.insertionSort eventAsc (eventsFor db taxFileId)

/-- The query above with `ORDER BY StatusUpdateDate DESC LIMIT 1`
(db-service.ts `getLatestTaxProcessingEvent`). -/
def getLatestTaxProcessingEvent (db : Database) (taxFileId : String) :
    Option TaxProcessingEvent :=
  (List.insertionSort eventDesc (eventsFor db taxFileId)).head?

/-- The request payload built in ml-integration.ts `getPrediction`. -/
structure PredictionRequest where
  filing_type : String
  tax_year : Int
  refund_amount : Rat
  geographic_region : String
  processing_center : String
  filing_period : Option String
  source_status : String
  target_status : String
  deriving Repr, DecidableEq

/-- The ML API's response body, interface `PredictionResponse` in
ml-integration.ts. -/
structure PredictionResponse where
  estimated_days : Int
  confidence_score : Rat
  predicted_date : String
  model_version : String
  deriving Repr, DecidableEq

/-- The observable behaviour of the external ML API process: whether the
`/health` endpoint answers `ok`, and what `/predict` returns for a payload
(`none` models an HTTP error or timeout, which `getPrediction` catches). -/
structure MLApi where
  healthOk : Bool
  predictResult : PredictionRequest → Option PredictionResponse

/-- ml-integration.ts `checkMLApiHealth`: true iff the health endpoint
responded with status `ok`; any error yields false. -/
def checkMLApiHealth (api : MLApi) : Bool :=
  api.healthOk

/-- ml-integration.ts `getPrediction`: posts the payload (with the fixed
source/target statuses) and returns the response, or `null` on any error. -/
def getPrediction (api : MLApi) (filingType : String) (taxYear : Int)
    (refundAmount : Rat) (geographicRegion : String)
    (processingCenter : String) (filingPeriod : Option String) :
    Option PredictionResponse :=
  api.predictResult
    { filing_type := filingType
      tax_year := taxYear
      refund_amount := refundAmount
      geographic_region := geographicRegion
      processing_center := processingCenter
      filing_period := filingPeriod
      source_status := "Processing"
      target_status := "Approved" }

/-- The ambient effects of one request: the external ML API, plus the
values of `new Date().toISOString()` and `uuidv4()` used when persisting. -/
structure Env where
  ml : MLApi
  now : String
  freshId : String

/-- The result type of prediction-service.ts, interface `PredictionResult`:
exactly three fields. -/
structure PredictionResult where
  estimatedDays : Int
  confidenceScore : Rat
  predictedDate : String
  deriving Repr, DecidableEq

/-- db-service.ts `createTaxRefundPrediction`: inserts a row with a fresh
id, the hardcoded model version string, and the current timestamp, and
resolves with the inserted row. -/
def createTaxRefundPrediction (env : Env) (db : Database) (taxFileId : String)
    (confidenceScore : Rat) (predictedAvailabilityDate : String)
    (inputFeatures : InputFeatures) : TaxRefundPrediction × Database :=
  let modelVersion := "v1.0"
  let prediction : TaxRefundPrediction :=
    { PredictionID := env.freshId
      TaxFileID := taxFileId
      ConfidenceScore := confidenceScore
      ModelVersion := modelVersion
      PredictedAvailabilityDate := predictedAvailabilityDate
      InputFeatures := inputFeatures
      CreatedAt := env.now }
  (prediction, { db with predictions := db.predictions ++ [prediction] })

/-- JavaScript `pc || 'Unknown'` for a string: the empty string (and a null
modelled as the empty string) falls back to `"Unknown"`. -/
def processingCenterOrUnknown (pc : String) : String :=
  if pc = "" then "Unknown" else pc

/-- The body of prediction-service.ts `predictRefundAvailability` inside the
`try`: the not-found tax file throws; every other early exit returns null. -/
def predictRefundAvailabilityInner (env : Env) (db : Database)
    (taxFileId : String) : Except String (Option PredictionResult × Database) :=
  match getTaxFileById db taxFileId with
  | none => .error ("Tax file not found: " ++ taxFileId)
  | some taxFile =>
    match getLatestTaxProcessingEvent db taxFileId with
    | none => .ok (none, db)
    | some latestEvent =>
      if latestEvent.NewStatus ≠ "Processing" then .ok (none, db)
      else if checkMLApiHealth env.ml = false then .ok (none, db)
      else
        match getPrediction env.ml taxFile.FilingType taxFile.TaxYear
            taxFile.ClaimedRefundAmount taxFile.GeographicRegion
            (processingCenterOrUnknown latestEvent.ProcessingCenter) none with
        | none => .ok (none, db)
        | some mlPrediction =>
          let result : PredictionResult :=
            { estimatedDays := mlPrediction.estimated_days
              confidenceScore := mlPrediction.confidence_score
              predictedDate := mlPrediction.predicted_date }
          let inputFeatures : InputFeatures :=
            { filingType := taxFile.FilingType
              taxYear := taxFile.TaxYear
              region := taxFile.GeographicRegion
              amount := taxFile.ClaimedRefundAmount }
          let inserted := createTaxRefundPrediction env db taxFileId
            result.confidenceScore result.predictedDate inputFeatures
          .ok (some result, inserted.2)

/-- prediction-service.ts `predictRefundAvailability`: the `catch` turns any
thrown error into a `null` resolution, so the promise never rejects. -/
def predictRefundAvailability (env : Env) (db : Database) (taxFileId : String) :
    Option PredictionResult × Database :=
  match predictRefundAvailabilityInner env db taxFileId with
  | .ok v => v
  | .error _ => (none, db)

/-- The status object of db-service.ts interface `RefundStatus`; the four
optional fields are absent (`none`) unless the status-specific branch of
`getRefundStatus` sets them. -/
structure RefundStatus where
  status : String
  details : Option String
  lastUpdated : String
  actionRequired : Option String
  estimatedCompletionDays : Option Int
  estimatedCompletionDate : Option String
  refundAmount : Option Rat
  depositDate : Option String
  deriving Repr, DecidableEq

/-- The characters before the first occurrence of `c`. -/
def takeUntil (c : Char) : List Char → List Char
  | [] => []
  | a :: as => if a = c then [] else a :: takeUntil c as

/-- JavaScript `s.split('T')[0]`: the text before the first `'T'`. -/
def datePart (s : String) : String :=
  String.mk (takeUntil 'T' s.data)

/-- refund-status-service.ts `getRefundStatus`, embedded with the database
threaded through (the `Processing` branch may insert a prediction row). -/
def getRefundStatus (env : Env) (db : Database) (taxFileId : String) :
    Option RefundStatus × Database :=
  match getTaxFileById db taxFileId with
  | none => (none, db)
  | some taxFile =>
    match getLatestTaxProcessingEvent db taxFileId with
    | none =>
      (some { status := "Not Found"
              details := some "No processing events found for this tax filing."
              lastUpdated := env.now
              actionRequired := none
              estimatedCompletionDays := none
              estimatedCompletionDate := none
              refundAmount := none
              depositDate := none }, db)
    | some latestEvent =>
      let base : RefundStatus :=
        { status := latestEvent.NewStatus
          details := some latestEvent.StatusDetails
          lastUpdated := latestEvent.StatusUpdateDate
          actionRequired := latestEvent.ActionRequired
          estimatedCompletionDays := none
          estimatedCompletionDate := none
          refundAmount := none
          depositDate := none }
      if latestEvent.NewStatus = "Processing" then
        let stepped := predictRefundAvailability env db taxFileId
        match stepped.1 with
        | some prediction =>
          (some { base with
                    estimatedCompletionDays := some prediction.estimatedDays
                    estimatedCompletionDate := some prediction.predictedDate },
           stepped.2)
        | none => (some base, stepped.2)
      else if latestEvent.NewStatus = "Approved" then
        (some { base with
                  refundAmount := some taxFile.ClaimedRefundAmount
                  depositDate := some (datePart latestEvent.StatusUpdateDate) },
         db)
      else (some base, db)

/-- refund-status-service.ts `getRefundStatusHistory`: all processing
events of the filing in ascending status-update order. -/
def getRefundStatusHistory (db : Database) (taxFileId : String) :
    List TaxProcessingEvent :=
  getTaxProcessingEvents db taxFileId

end TaxRefund

namespace MLPipeline

/-! The Python pipeline under ml_etl/src is launched by
train_ml_model.sh / host_ml_model.sh but is not part of the repository;
only data/schema.sql describes its persisted state.  The components the
claims need are modelled from the spec, with table shapes taken from
ml_etl/data/schema.sql. -/

/-- A row of `MLModels` in ml_etl/data/schema.sql (metadata fields the
claims do not mention are elided). -/
structure MLModel where
  ModelID : String
  ModelVersion : Nat
  IsActive : Bool
  deriving Repr, DecidableEq

/-- Modelled from the spec: "the current active version" read by
ModelTrainer.train (the Python implementation under ml_etl/src is missing
from the repository). -/
def activeModel (store : List MLModel) : Option MLModel :=
  store.find? (fun m => m.IsActive)

/-- Modelled from the spec: "Output artifact's version is one greater than
the current active version (or 1 if none exists)". -/
def nextVersion (store : List MLModel) : Nat :=
  match activeModel store with
  | some m => m.ModelVersion + 1
  | none => 1

/-- Modelled from the spec: the artifact-creation step of
ModelTrainer.train — "artifact creation atomically supersedes the prior
active artifact"; the single pure state update deactivates every prior
artifact and inserts the new active one (the Python implementation under
ml_etl/src is missing from the repository). -/
def train (store : List MLModel) (newId : String) : List MLModel :=
  let version := nextVersion store
  { ModelID := newId, ModelVersion := version, IsActive := true } ::
    store.map (fun m => { m with IsActive := false })

/-- One status event of a filing, as paired by ETL extract: the status
reached and the day (since an arbitrary epoch) it was reached. -/
structure StatusEvent where
  status : String
  day : Nat
  deriving Repr, DecidableEq

/-- A labeled transition row of `TrainingData` in ml_etl/data/schema.sql
(feature columns the claims do not mention are elided). -/
structure TrainingExample where
  SourceStatus : String
  TargetStatus : String
  ActualTransitionDays : Nat
  deriving Repr, DecidableEq

/-- Modelled from the spec: pairing of consecutive status events — "a
filing with N events yields N-1 transition records (the terminal event
alone, with no successor, yields no record)" (the Python ETL under
ml_etl/src is missing from the repository). -/
def pairTransitions : List StatusEvent → List TrainingExample
  | [] => []
  | [_] => []
  | a :: b :: rest =>
    { SourceStatus := a.status
      TargetStatus := b.status
      ActualTransitionDays := b.day - a.day } :: pairTransitions (b :: rest)

/-- The chronological order on status events. -/
def dayAsc (a b : StatusEvent) : Prop := a.day ≤ b.day

instance : DecidableRel dayAsc :=
  fun _ _ => inferInstanceAs (Decidable (_ ≤ _))

/-- Modelled from the spec: ETL extract for one filing — "sort by
status-update time before pairing, never by insertion order", then pair
consecutive events (the Python ETL under ml_etl/src is missing from the
repository). -/
def extractFiling (events : List StatusEvent) : List TrainingExample :=
  pairTransitions (List.insertionSort dayAsc events)

/-- Modelled from the spec: a deterministic hash of a string, used to key
the partition split by record identity — "assign by hashing record
identity, not by a stateful random-number stream" (the Python ETL under
ml_etl/src is missing from the repository). -/
def hashString (s : String) : Nat :=
  s.data.foldl (fun acc c => (acc * 31 + c.toNat) % 1000000007) 7

/-- Modelled from the spec: partition assignment "using a fixed split
ratio (e.g., 70/15/15) with a seeded deterministic shuffle keyed by record
identity", the seed being the ETL job id (the Python ETL under ml_etl/src
is missing from the repository). -/
def assignPartition (etlJobId recordId : String) : String :=
  let bucket := hashString (etlJobId ++ ":" ++ recordId) % 100
  if bucket < 70 then "training"
  else if bucket < 85 then "validation"
  else "test"

/-- Modelled from the spec: the partition-tagging step of ETL transform —
each record identity is mapped to its partition (the Python ETL under
ml_etl/src is missing from the repository). -/
def transformPartitions (etlJobId : String) (recordIds : List String) :
    List (String × String) :=
  recordIds.map (fun r => (r, assignPartition etlJobId r))

/-- A row of `RetrainingDecisions` in ml_etl/data/schema.sql; the
`RecommendationReason` TEXT column is kept alongside the list of
independent reasons it is joined from. -/
structure RetrainingDecision where
  ScheduleBasedRetraining : Bool
  PerformanceBasedRetraining : Bool
  DriftBasedRetraining : Bool
  RetrainingRecommended : Bool
  Reasons : List String
  RecommendationReason : String
  deriving Repr, DecidableEq

def scheduleReason : String :=
  "Time since last training exceeds the scheduled retraining interval"

def performanceReason : String :=
  "Model performance fell below the accuracy floor or shows a worsening trend"

def driftReason : String :=
  "Feature drift detected between the training baseline and recent inputs"

/-- Modelled from the spec: RetrainingDecisionEngine.decide — "Final
recommendation is the logical OR of the three, each with an independent,
recorded textual reason (multiple reasons may co-occur and must all be
recorded, not just the first match)" (the Python implementation under
ml_etl/src is missing from the repository). -/
def decide (schedule performance drift : Bool) : RetrainingDecision :=
  let reasons :=
    (if schedule then [scheduleReason] else []) ++
    (if performance then [performanceReason] else []) ++
    (if drift then [driftReason] else [])
  { ScheduleBasedRetraining := schedule
    PerformanceBasedRetraining := performance
    DriftBasedRetraining := drift
    RetrainingRecommended := schedule || performance || drift
    Reasons := reasons
    RecommendationReason := String.intercalate "; " reasons }

end MLPipeline

namespace TaxRefund

/-! Concrete fixtures used to evaluate the embedded service on explicit
inputs (witnesses and counterexamples). -/

/-- A sample filing. -/
def tf1 : TaxFile :=
  { TaxFileID := "tf-1"
    UserID := "user-1"
    TaxYear := 2024
    FilingType := "Single"
    DateOfFiling := "2025-01-01T00:00:00"
    TaxCategories := "W2"
    DeductionCategories := "Standard"
    ClaimedRefundAmount := 2500
    GeographicRegion := "West"
    CreatedAt := "2025-01-01T00:00:00" }

/-- The filing is submitted. -/
def ev1 : TaxProcessingEvent :=
  { EventID := "ev-1"
    TaxFileID := "tf-1"
    OldStatus := none
    NewStatus := "Submitted"
    StatusDetails := "Return received"
    StatusUpdateDate := "2025-01-01T00:00:00"
    UpdateSource := "IRS"
    ActionRequired := none
    ProcessingCenter := "Austin"
    CreatedAt := "2025-01-01T00:00:00" }

/-- The filing moves to Processing five days later. -/
def ev2 : TaxProcessingEvent :=
  { EventID := "ev-2"
    TaxFileID := "tf-1"
    OldStatus := some "Submitted"
    NewStatus := "Processing"
    StatusDetails := "Return is being processed"
    StatusUpdateDate := "2025-01-06T00:00:00"
    UpdateSource := "IRS"
    ActionRequired := none
    ProcessingCenter := "Austin"
    CreatedAt := "2025-01-06T00:00:00" }

/-- The filing is approved. -/
def ev3 : TaxProcessingEvent :=
  { EventID := "ev-3"
    TaxFileID := "tf-1"
    OldStatus := some "Processing"
    NewStatus := "Approved"
    StatusDetails := "Refund approved"
    StatusUpdateDate := "2025-02-01T12:30:00"
    UpdateSource := "IRS"
    ActionRequired := none
    ProcessingCenter := "Austin"
    CreatedAt := "2025-02-01T12:30:00" }

/-- A database in which tf-1's latest event is `Processing`. -/
def dbProcessing : Database :=
  { taxFiles := [tf1], events := [ev1, ev2], predictions := [] }

/-- A database in which tf-1's latest event is `Approved`. -/
def dbApproved : Database :=
  { taxFiles := [tf1], events := [ev1, ev2, ev3], predictions := [] }

/-- A healthy ML API answering every predict call with a fixed response. -/
def respOk : PredictionResponse :=
  { estimated_days := 30
    confidence_score := 87/100
    predicted_date := "2025-02-05"
    model_version := "v2.3" }

def apiOk : MLApi :=
  { healthOk := true, predictResult := fun _ => some respOk }

/-- An unreachable ML API (health check fails). -/
def apiDown : MLApi :=
  { healthOk := false, predictResult := fun _ => none }

/-- A healthy ML API whose predict call fails. -/
def apiNoResult : MLApi :=
  { healthOk := true, predictResult := fun _ => none }

def envOk : Env :=
  { ml := apiOk, now := "2025-01-10T00:00:00", freshId := "pred-1" }

def envDown : Env :=
  { ml := apiDown, now := "2025-01-10T00:00:00", freshId := "pred-1" }

def envNoResult : Env :=
  { ml := apiNoResult, now := "2025-01-10T00:00:00", freshId := "pred-1" }

/-- Two ML API responses that agree except for the model version (and carry
a confidence score above 1). -/
def respVerA : PredictionResponse :=
  { estimated_days := 30
    confidence_score := 3/2
    predicted_date := "2025-02-05"
    model_version := "vA" }

def respVerB : PredictionResponse :=
  { estimated_days := 30
    confidence_score := 3/2
    predicted_date := "2025-02-05"
    model_version := "vB" }

def envVerA : Env :=
  { ml := { healthOk := true, predictResult := fun _ => some respVerA }
    now := "2025-01-10T00:00:00", freshId := "pred-1" }

def envVerB : Env :=
  { ml := { healthOk := true, predictResult := fun _ => some respVerB }
    now := "2025-01-10T00:00:00", freshId := "pred-1" }

/-- The result served for tf-1 under `envOk`. -/
def resultOk : PredictionResult :=
  { estimatedDays := 30, confidenceScore := 87/100, predictedDate := "2025-02-05" }

/-- The row persisted for tf-1 under `envOk`. -/
def predOk : TaxRefundPrediction :=
  { PredictionID := "pred-1"
    TaxFileID := "tf-1"
    ConfidenceScore := 87/100
    ModelVersion := "v1.0"
    PredictedAvailabilityDate := "2025-02-05"
    InputFeatures :=
      { filingType := "Single", taxYear := 2024, region := "West", amount := 2500 }
    CreatedAt := "2025-01-10T00:00:00" }

/-- The database state after the successful prediction under `envOk`. -/
def dbAfterOk : Database :=
  { taxFiles := [tf1], events := [ev1, ev2], predictions := [predOk] }

end TaxRefund

namespace MLPipeline

/-- A one-model store whose single artifact is active at version 1. -/
def store0 : List MLModel :=
  [{ ModelID := "model-1", ModelVersion := 1, IsActive := true }]

/-- The three-event scenario of the spec: Submitted, then Processing 5 days
later, then Approved 21 days after that. -/
def scenarioEvents : List StatusEvent :=
  [{ status := "Submitted", day := 0 },
   { status := "Processing", day := 5 },
   { status := "Approved", day := 26 }]

end MLPipeline

namespace TaxRefund

/-! Order-theoretic facts about the embedded SQLite TEXT ordering. -/

theorem listLe_refl : ∀ l : List Char, listLe l l = true
  | [] => rfl
  | a :: as => by simp [listLe, listLe_refl as]

theorem listLe_total : ∀ a b : List Char, listLe a b = true ∨ listLe b a = true
  | [], _ => Or.inl rfl
  | _ :: _, [] => Or.inr rfl
  | a :: as, b :: bs => by
    rcases Nat.lt_trichotomy a.toNat b.toNat with h | h | h
    · exact Or.inl (by simp [listLe, h])
    · rcases listLe_total as bs with ih | ih
      · exact Or.inl (by simp [listLe, h, ih])
      · exact Or.inr (by simp [listLe, h, ih])
    · exact Or.inr (by simp [listLe, h])

theorem listLe_trans : ∀ a b c : List Char,
    listLe a b = true → listLe b c = true → listLe a c = true
  | [], _, _, _, _ => rfl
  | _ :: _, [], _, h, _ => by simp [listLe] at h
  | _ :: _, _ :: _, [], _, h => by simp [listLe] at h
  | a :: as, b :: bs, c :: cs, h1, h2 => by
    simp only [listLe] at h1 h2 ⊢
    rcases Nat.lt_trichotomy a.toNat b.toNat with hab | hab | hab
    · rcases Nat.lt_trichotomy b.toNat c.toNat with hbc | hbc | hbc
      · rw [if_pos (by omega)]
      · rw [if_pos (by omega)]
      · rw [if_neg (by omega), if_pos hbc] at h2
        simp at h2
    · rcases Nat.lt_trichotomy b.toNat c.toNat with hbc | hbc | hbc
      · rw [if_pos (by omega)]
      · rw [if_neg (by omega), if_neg (by omega)] at h1
        rw [if_neg (by omega), if_neg (by omega)] at h2
        rw [if_neg (by omega), if_neg (by omega)]
        exact listLe_trans as bs cs h1 h2
      · rw [if_neg (by omega), if_pos hbc] at h2
        simp at h2
    · rw [if_neg (by omega), if_pos hab] at h1
      simp at h1

theorem strLe_refl (a : String) : strLe a a = true := listLe_refl a.data

theorem strLe_total (a b : String) : strLe a b = true ∨ strLe b a = true :=
  listLe_total a.data b.data

theorem strLe_trans {a b c : String} (h1 : strLe a b = true)
    (h2 : strLe b c = true) : strLe a c = true :=
  listLe_trans a.data b.data c.data h1 h2

instance : IsTotal TaxProcessingEvent eventAsc :=
  ⟨fun a b => strLe_total a.StatusUpdateDate b.StatusUpdateDate⟩

instance : IsTrans TaxProcessingEvent eventAsc :=
  ⟨fun _ _ _ h1 h2 => strLe_trans h1 h2⟩

instance : IsTotal TaxProcessingEvent eventDesc :=
  ⟨fun a b => strLe_total b.StatusUpdateDate a.StatusUpdateDate⟩

instance : IsTrans TaxProcessingEvent eventDesc :=
  ⟨fun _ _ _ h1 h2 => strLe_trans h2 h1⟩

/-- The first row of the descending sort is a maximum of the selected rows:
it is one of them and no other has a later StatusUpdateDate. -/
theorem head_desc_max (l : List TaxProcessingEvent) (ev : TaxProcessingEvent)
    (h : (List.insertionSort eventDesc l).head? = some ev) :
    ev ∈ l ∧ ∀ e ∈ l, strLe e.StatusUpdateDate ev.StatusUpdateDate = true := by
  have hsorted : List.Sorted eventDesc (List.insertionSort eventDesc l) :=
    List.sorted_insertionSort eventDesc l
  have hperm : (List.insertionSort eventDesc l).Perm l :=
    List.perm_insertionSort eventDesc l
  cases hl : List.insertionSort eventDesc l with
  | nil => rw [hl] at h; simp at h
  | cons x xs =>
    rw [hl] at h
    simp only [List.head?_cons, Option.some.injEq] at h
    obtain rfl : x = ev := h
    rw [hl] at hperm hsorted
    constructor
    · exact hperm.mem_iff.mp (List.mem_cons_self _ _)
    · intro e he
      have he2 : e ∈ x :: xs := hperm.mem_iff.mpr he
      rcases List.mem_cons.mp he2 with rfl | htail
      · exact strLe_refl _
      · exact (List.pairwise_cons.mp hsorted).1 e htail

end TaxRefund

namespace TaxRefund

/-- Exhaustive case analysis of `predictRefundAvailability`: every run
either resolves to `null` with the database untouched, or all of its
guards passed and it resolves with the ML response's fields, having
appended exactly one prediction row. -/
theorem predict_cases (env : Env) (db : Database) (taxFileId : String) :
    predictRefundAvailability env db taxFileId = (none, db) ∨
    ∃ tf ev resp,
      getTaxFileById db taxFileId = some tf ∧
      getLatestTaxProcessingEvent db taxFileId = some ev ∧
      ev.NewStatus = "Processing" ∧
      checkMLApiHealth env.ml = true ∧
      getPrediction env.ml tf.FilingType tf.TaxYear tf.ClaimedRefundAmount
        tf.GeographicRegion (processingCenterOrUnknown ev.ProcessingCenter) none
        = some resp ∧
      predictRefundAvailability env db taxFileId =
        (some { estimatedDays := resp.estimated_days
                confidenceScore := resp.confidence_score
                predictedDate := resp.predicted_date },
         { db with predictions := db.predictions ++
            [{ PredictionID := env.freshId
               TaxFileID := taxFileId
               ConfidenceScore := resp.confidence_score
               ModelVersion := "v1.0"
               PredictedAvailabilityDate := resp.predicted_date
               InputFeatures :=
                 { filingType := tf.FilingType
                   taxYear := tf.TaxYear
                   region := tf.GeographicRegion
                   amount := tf.ClaimedRefundAmount }
               CreatedAt := env.now }] }) := by
  unfold predictRefundAvailability predictRefundAvailabilityInner
  cases hf : getTaxFileById db taxFileId with
  | none => exact Or.inl rfl
  | some tf =>
    cases he : getLatestTaxProcessingEvent db taxFileId with
    | none => exact Or.inl rfl
    | some ev =>
      by_cases hs : ev.NewStatus = "Processing"
      · cases hh : checkMLApiHealth env.ml with
        | false => exact Or.inl (by simp [hs])
        | true =>
          cases hp : getPrediction env.ml tf.FilingType tf.TaxYear
              tf.ClaimedRefundAmount tf.GeographicRegion
              (processingCenterOrUnknown ev.ProcessingCenter) none with
          | none => exact Or.inl (by simp [hs, hp])
          | some resp =>
            refine Or.inr ⟨tf, ev, resp, rfl, rfl, hs, rfl, hp, ?_⟩
            simp [hs, hp, createTaxRefundPrediction]
      · exact Or.inl (by simp [hs])

end TaxRefund

namespace MLPipeline

/-- Pairing consecutive events yields one fewer record than events. -/
theorem pairTransitions_length :
    ∀ l : List StatusEvent, (pairTransitions l).length = l.length - 1
  | [] => rfl
  | [_] => rfl
  | _ :: b :: rest => by
    simp only [pairTransitions, List.length_cons,
      pairTransitions_length (b :: rest), List.length_cons]
    omega

/-- Looking a record up in the partition tagging recovers exactly its
hash-assigned partition, whatever the rest of the input is. -/
theorem lookup_transformPartitions (etlJobId r : String) :
    ∀ l : List String, List.lookup r (transformPartitions etlJobId l) =
      if r ∈ l then some (assignPartition etlJobId r) else none
  | [] => rfl
  | x :: xs => by
    have step : transformPartitions etlJobId (x :: xs) =
        (x, assignPartition etlJobId x) :: transformPartitions etlJobId xs := rfl
    by_cases hx : r = x
    · subst hx
      simp [step, List.lookup]
    · have hbeq : (r == x) = false := beq_false_of_ne hx
      rw [step]
      simp only [List.lookup, hbeq]
      rw [lookup_transformPartitions etlJobId r xs]
      simp [List.mem_cons, hx]

end MLPipeline

namespace TaxRefund

/-- C1: When no model is available to serve — the ML prediction API is
unreachable or its health check fails, or the prediction call returns no
result — `predictRefundAvailability` surfaces the explicit unavailable
condition (a null result), returns no default numeric guess for estimated
days, and records nothing; this holds for every tax file whose latest
processing event has status `Processing`. -/
theorem noModel_prediction_returns_null (env : Env) (db : Database)
    (taxFileId : String) (taxFile : TaxFile) (latestEvent : TaxProcessingEvent)
    (hf : getTaxFileById db taxFileId = some taxFile)
    (he : getLatestTaxProcessingEvent db taxFileId = some latestEvent)
    (_hs : latestEvent.NewStatus = "Processing")
    (hun : checkMLApiHealth env.ml = false ∨
      getPrediction env.ml taxFile.FilingType taxFile.TaxYear
        taxFile.ClaimedRefundAmount taxFile.GeographicRegion
        (processingCenterOrUnknown latestEvent.ProcessingCenter) none = none) :
    predictRefundAvailability env db taxFileId = (none, db) := by
  rcases predict_cases env db taxFileId with h | ⟨tf, ev, resp, h1, h2, _, h4, h5, _⟩
  · exact h
  · rw [hf] at h1
    rw [he] at h2
    obtain rfl : taxFile = tf := Option.some.inj h1
    obtain rfl : latestEvent = ev := Option.some.inj h2
    rcases hun with hh | hp
    · rw [h4] at hh
      simp at hh
    · rw [h5] at hp
      simp at hp

/-- Witness for C1: the filing tf-1 sits at `Processing` and the ML API is
down; the prediction resolves to null and the database is unchanged. -/
theorem noModel_prediction_returns_null_witness :
    predictRefundAvailability envDown dbProcessing "tf-1" = (none, dbProcessing) :=
  noModel_prediction_returns_null envDown dbProcessing "tf-1" tf1 ev2 rfl rfl rfl
    (Or.inl rfl)

/-- C2 counterexample: a successful inference served by the ML API with
model version "v2.3" stores a PredictionRecord whose ModelVersion is the
hardcoded "v1.0" — not the version actually used. -/
theorem prediction_record_version_counterexample :
    (predictRefundAvailability envOk dbProcessing "tf-1").2.predictions.map
        (fun p => p.ModelVersion) = ["v1.0"] ∧
    respOk.model_version = "v2.3" ∧
    ("v1.0" : String) ≠ "v2.3" :=
  ⟨rfl, rfl, by decide⟩

/-- C2 (amended): on every successful inference exactly one
PredictionRecord is appended; it contains the input feature vector, the
confidence score, the predicted availability date (in place of the
predicted transition-day count), the constant model version string "v1.0"
regardless of the model actually used, and the creation timestamp. -/
theorem prediction_record_contents (env : Env) (db : Database)
    (taxFileId : String) (r : PredictionResult) (db2 : Database)
    (h : predictRefundAvailability env db taxFileId = (some r, db2)) :
    ∃ tf, getTaxFileById db taxFileId = some tf ∧
      db2.predictions = db.predictions ++
        [{ PredictionID := env.freshId
           TaxFileID := taxFileId
           ConfidenceScore := r.confidenceScore
           ModelVersion := "v1.0"
           PredictedAvailabilityDate := r.predictedDate
           InputFeatures :=
             { filingType := tf.FilingType
               taxYear := tf.TaxYear
               region := tf.GeographicRegion
               amount := tf.ClaimedRefundAmount }
           CreatedAt := env.now }] := by
  rcases predict_cases env db taxFileId with h0 | ⟨tf, _, resp, h1, _, _, _, _, h6⟩
  · rw [h0] at h
    simp at h
  · rw [h6] at h
    have hr := congrArg Prod.fst h
    have hdb := congrArg Prod.snd h
    obtain rfl : _ = r := Option.some.inj hr
    subst hdb
    exact ⟨tf, h1, rfl⟩

/-- Witness for C2 (amended) at the concrete successful run under envOk. -/
theorem prediction_record_contents_witness :
    ∃ tf, getTaxFileById dbProcessing "tf-1" = some tf ∧
      dbAfterOk.predictions = dbProcessing.predictions ++
        [{ PredictionID := envOk.freshId
           TaxFileID := "tf-1"
           ConfidenceScore := resultOk.confidenceScore
           ModelVersion := "v1.0"
           PredictedAvailabilityDate := resultOk.predictedDate
           InputFeatures :=
             { filingType := tf.FilingType
               taxYear := tf.TaxYear
               region := tf.GeographicRegion
               amount := tf.ClaimedRefundAmount }
           CreatedAt := envOk.now }] :=
  prediction_record_contents envOk dbProcessing "tf-1" resultOk dbAfterOk rfl

/-- C3 counterexample: two successful runs that differ only in the ML
API's model version return identical responses to the caller — the
response carries no model-version field — and the confidence score is
passed through even when it lies outside [0, 1]. -/
theorem prediction_response_fields_counterexample :
    (predictRefundAvailability envVerA dbProcessing "tf-1").1 =
      (predictRefundAvailability envVerB dbProcessing "tf-1").1 ∧
    (predictRefundAvailability envVerA dbProcessing "tf-1").1 =
      some { estimatedDays := 30, confidenceScore := 3/2,
             predictedDate := "2025-02-05" } ∧
    respVerA.model_version ≠ respVerB.model_version ∧
    ¬ ((3 : ℚ)/2 ≤ 1) :=
  ⟨rfl, rfl, by decide, by norm_num⟩

/-- C3 (amended): for every successful prediction request the response
returned to the caller consists of exactly three fields — the ML
response's estimated days (an integer), its confidence score passed
through unvalidated, and its predicted date string; the model version is
not part of the response. -/
theorem prediction_response_contents (env : Env) (db : Database)
    (taxFileId : String) (r : PredictionResult) (db2 : Database)
    (h : predictRefundAvailability env db taxFileId = (some r, db2)) :
    ∃ tf ev resp,
      getTaxFileById db taxFileId = some tf ∧
      getLatestTaxProcessingEvent db taxFileId = some ev ∧
      getPrediction env.ml tf.FilingType tf.TaxYear tf.ClaimedRefundAmount
        tf.GeographicRegion (processingCenterOrUnknown ev.ProcessingCenter) none
        = some resp ∧
      r = { estimatedDays := resp.estimated_days
            confidenceScore := resp.confidence_score
            predictedDate := resp.predicted_date } := by
  rcases predict_cases env db taxFileId with h0 | ⟨tf, ev, resp, h1, h2, _, _, h5, h6⟩
  · rw [h0] at h
    simp at h
  · rw [h6] at h
    have hr := congrArg Prod.fst h
    obtain rfl : _ = r := Option.some.inj hr
    exact ⟨tf, ev, resp, h1, h2, h5, rfl⟩

/-- Witness for C3 (amended) at the concrete successful run under envOk. -/
theorem prediction_response_contents_witness :
    ∃ tf ev resp,
      getTaxFileById dbProcessing "tf-1" = some tf ∧
      getLatestTaxProcessingEvent dbProcessing "tf-1" = some ev ∧
      getPrediction envOk.ml tf.FilingType tf.TaxYear tf.ClaimedRefundAmount
        tf.GeographicRegion (processingCenterOrUnknown ev.ProcessingCenter) none
        = some resp ∧
      resultOk = { estimatedDays := resp.estimated_days
                   confidenceScore := resp.confidence_score
                   predictedDate := resp.predicted_date } :=
  prediction_response_contents envOk dbProcessing "tf-1" resultOk dbAfterOk rfl

/-- C8: `predictRefundAvailability` is total over its failure paths —
every run resolves, either to null with the database unchanged (no
TaxRefundPredictions row inserted), or, when the tax file exists, its
latest event is `Processing`, the ML health check succeeds and the
prediction call returns a result, to the served values with exactly one
row appended.  In particular it resolves to null with no insert unless
all four conditions hold. -/
theorem predict_total_dichotomy (env : Env) (db : Database) (taxFileId : String) :
    predictRefundAvailability env db taxFileId = (none, db) ∨
    ∃ tf ev resp,
      getTaxFileById db taxFileId = some tf ∧
      getLatestTaxProcessingEvent db taxFileId = some ev ∧
      ev.NewStatus = "Processing" ∧
      checkMLApiHealth env.ml = true ∧
      getPrediction env.ml tf.FilingType tf.TaxYear tf.ClaimedRefundAmount
        tf.GeographicRegion (processingCenterOrUnknown ev.ProcessingCenter) none
        = some resp ∧
      predictRefundAvailability env db taxFileId =
        (some { estimatedDays := resp.estimated_days
                confidenceScore := resp.confidence_score
                predictedDate := resp.predicted_date },
         { db with predictions := db.predictions ++
            [{ PredictionID := env.freshId
               TaxFileID := taxFileId
               ConfidenceScore := resp.confidence_score
               ModelVersion := "v1.0"
               PredictedAvailabilityDate := resp.predicted_date
               InputFeatures :=
                 { filingType := tf.FilingType
                   taxYear := tf.TaxYear
                   region := tf.GeographicRegion
                   amount := tf.ClaimedRefundAmount }
               CreatedAt := env.now }] }) :=
  predict_cases env db taxFileId

end TaxRefund

namespace TaxRefund

/-- C9: for every tax file whose latest processing event has NewStatus
`Approved`, getRefundStatus returns a status whose refundAmount is the
file's ClaimedRefundAmount and whose depositDate is the date portion
(text before 'T') of that event's StatusUpdateDate, with no
estimatedCompletionDays or estimatedCompletionDate present, and leaves
the database unchanged. -/
theorem approved_status_fields (env : Env) (db : Database)
    (taxFileId : String) (taxFile : TaxFile) (latestEvent : TaxProcessingEvent)
    (hf : getTaxFileById db taxFileId = some taxFile)
    (he : getLatestTaxProcessingEvent db taxFileId = some latestEvent)
    (hs : latestEvent.NewStatus = "Approved") :
    getRefundStatus env db taxFileId =
      (some { status := "Approved"
              details := some latestEvent.StatusDetails
              lastUpdated := latestEvent.StatusUpdateDate
              actionRequired := latestEvent.ActionRequired
              estimatedCompletionDays := none
              estimatedCompletionDate := none
              refundAmount := some taxFile.ClaimedRefundAmount
              depositDate := some (datePart latestEvent.StatusUpdateDate) },
       db) := by
  unfold getRefundStatus
  rw [hf, he]
  simp [hs]

/-- Witness for C9: tf-1 approved on 2025-02-01T12:30:00 reports the
claimed amount and the date before 'T'. -/
theorem approved_status_fields_witness :
    getRefundStatus envOk dbApproved "tf-1" =
      (some { status := "Approved"
              details := some ev3.StatusDetails
              lastUpdated := ev3.StatusUpdateDate
              actionRequired := ev3.ActionRequired
              estimatedCompletionDays := none
              estimatedCompletionDate := none
              refundAmount := some tf1.ClaimedRefundAmount
              depositDate := some (datePart ev3.StatusUpdateDate) },
       dbApproved) :=
  approved_status_fields envOk dbApproved "tf-1" tf1 ev3 rfl rfl rfl

/-- C10: status reporting is ordered by status-update time, not insertion
order: the history is the filing's events sorted ascending by
StatusUpdateDate (a sorted permutation of the selected rows), the row
behind getLatestTaxProcessingEvent has the maximum StatusUpdateDate among
them, and the current status reported by getRefundStatus is that row's
NewStatus. -/
theorem status_ordering (db : Database) (taxFileId : String) :
    (getRefundStatusHistory db taxFileId).Pairwise
      (fun a b => strLe a.StatusUpdateDate b.StatusUpdateDate = true) ∧
    (getRefundStatusHistory db taxFileId).Perm (eventsFor db taxFileId) ∧
    (∀ ev, getLatestTaxProcessingEvent db taxFileId = some ev →
      ev ∈ eventsFor db taxFileId ∧
      ∀ e ∈ eventsFor db taxFileId,
        strLe e.StatusUpdateDate ev.StatusUpdateDate = true) ∧
    (∀ env taxFile ev, getTaxFileById db taxFileId = some taxFile →
      getLatestTaxProcessingEvent db taxFileId = some ev →
      ∃ st db2, getRefundStatus env db taxFileId = (some st, db2) ∧
        st.status = ev.NewStatus) := by
  refine ⟨?_, ?_, ?_, ?_⟩
  · exact List.sorted_insertionSort eventAsc (eventsFor db taxFileId)
  · exact List.perm_insertionSort eventAsc (eventsFor db taxFileId)
  · intro ev h
    exact head_desc_max (eventsFor db taxFileId) ev h
  · intro env taxFile ev hf he
    simp only [getRefundStatus, hf, he]
    by_cases hs : ev.NewStatus = "Processing"
    · simp only [if_pos hs]
      cases hpred : (predictRefundAvailability env db taxFileId).1 with
      | none => exact ⟨_, _, rfl, rfl⟩
      | some p => exact ⟨_, _, rfl, rfl⟩
    · rw [if_neg hs]
      by_cases ha : ev.NewStatus = "Approved"
      · rw [if_pos ha]
        exact ⟨_, _, rfl, rfl⟩
      · rw [if_neg ha]
        exact ⟨_, _, rfl, rfl⟩

/-- Witness for C10 at the concrete three-event database: the maximum
conjuncts are applied at ev3 and at envOk/tf1. -/
theorem status_ordering_witness :
    (getRefundStatusHistory dbApproved "tf-1").Pairwise
      (fun a b => strLe a.StatusUpdateDate b.StatusUpdateDate = true) ∧
    (getRefundStatusHistory dbApproved "tf-1").Perm (eventsFor dbApproved "tf-1") ∧
    (ev3 ∈ eventsFor dbApproved "tf-1" ∧
      ∀ e ∈ eventsFor dbApproved "tf-1",
        strLe e.StatusUpdateDate ev3.StatusUpdateDate = true) ∧
    (∃ st db2, getRefundStatus envOk dbApproved "tf-1" = (some st, db2) ∧
      st.status = ev3.NewStatus) :=
  ⟨(status_ordering dbApproved "tf-1").1,
   (status_ordering dbApproved "tf-1").2.1,
   (status_ordering dbApproved "tf-1").2.2.1 ev3 rfl,
   (status_ordering dbApproved "tf-1").2.2.2 envOk tf1 ev3 rfl rfl⟩

end TaxRefund

namespace MLPipeline

/-- C4 (modelled from the spec; the trainer's Python source is not in the
repository): after every successful train(), the new artifact heads the
store as the single active one, its version is `nextVersion` — one
greater than the previously active version, or 1 when none was active —
every other stored artifact is deactivated in the same state update, and
(given that prior versions lay below `nextVersion`, which the invariant
itself maintains) the new artifact is strictly the newest. -/
theorem train_active_model_invariant (store : List MLModel) (newId : String)
    (h : ∀ m ∈ store, m.ModelVersion < nextVersion store) :
    ∃ rest, train store newId =
        { ModelID := newId, ModelVersion := nextVersion store,
          IsActive := true } :: rest ∧
      (∀ m ∈ rest, m.IsActive = false) ∧
      (∀ m ∈ rest, m.ModelVersion < nextVersion store) ∧
      (train store newId).countP (fun m => m.IsActive) = 1 ∧
      (∀ prev, activeModel store = some prev →
        nextVersion store = prev.ModelVersion + 1) ∧
      (activeModel store = none → nextVersion store = 1) := by
  refine ⟨store.map (fun m => { m with IsActive := false }), ?_, ?_, ?_, ?_, ?_, ?_⟩
  · rfl
  · intro m hm
    obtain ⟨m0, _, rfl⟩ := List.mem_map.mp hm
    rfl
  · intro m hm
    obtain ⟨m0, hm0, rfl⟩ := List.mem_map.mp hm
    exact h m0 hm0
  · have hz : (store.map (fun m => { m with IsActive := false })).countP
        (fun m => m.IsActive) = 0 := by
      rw [List.countP_eq_zero]
      intro m hm
      obtain ⟨m0, _, rfl⟩ := List.mem_map.mp hm
      simp
    simp [train, List.countP_cons, hz]
  · intro prev hprev
    simp [nextVersion, hprev]
  · intro hnone
    simp [nextVersion, hnone]

/-- Witness for C4: training over a store whose only artifact is active at
version 1 yields a single active artifact at version 2. -/
theorem train_active_model_invariant_witness :
    ∃ rest, train store0 "model-2" =
        { ModelID := "model-2", ModelVersion := nextVersion store0,
          IsActive := true } :: rest ∧
      (∀ m ∈ rest, m.IsActive = false) ∧
      (∀ m ∈ rest, m.ModelVersion < nextVersion store0) ∧
      (train store0 "model-2").countP (fun m => m.IsActive) = 1 ∧
      (∀ prev, activeModel store0 = some prev →
        nextVersion store0 = prev.ModelVersion + 1) ∧
      (activeModel store0 = none → nextVersion store0 = 1) :=
  train_active_model_invariant store0 "model-2" (by decide)

/-- C5 (modelled from the spec; the ETL's Python source is not in the
repository): extracting a filing with N ordered status events yields
exactly N-1 transition records, and the three-event scenario Submitted →
Processing → Approved, 5 and 21 days apart, yields exactly the two
training examples labelled 5 and 21. -/
theorem etl_transition_counts :
    (∀ events : List StatusEvent,
      (extractFiling events).length = events.length - 1) ∧
    extractFiling scenarioEvents =
      [{ SourceStatus := "Submitted", TargetStatus := "Processing",
         ActualTransitionDays := 5 },
       { SourceStatus := "Processing", TargetStatus := "Approved",
         ActualTransitionDays := 21 }] := by
  constructor
  · intro events
    unfold extractFiling
    rw [pairTransitions_length, List.length_insertionSort]
  · decide

/-- C6 (modelled from the spec; the ETL's Python source is not in the
repository): partition assignment is deterministic and independent of
record order — over any two orderings of the same input set every record
id is looked up to the identical partition, and each record is tagged
with exactly its identity-hash assignment. -/
theorem etl_partition_determinism (etlJobId : String) (l1 l2 : List String)
    (hp : l1.Perm l2) :
    (∀ r, List.lookup r (transformPartitions etlJobId l1) =
      List.lookup r (transformPartitions etlJobId l2)) ∧
    (∀ r ∈ l1, (r, assignPartition etlJobId r) ∈
      transformPartitions etlJobId l1) := by
  constructor
  · intro r
    rw [lookup_transformPartitions, lookup_transformPartitions]
    by_cases hm : r ∈ l1
    · rw [if_pos hm, if_pos (hp.mem_iff.mp hm)]
    · rw [if_neg hm, if_neg (fun hc => hm (hp.mem_iff.mpr hc))]
  · intro r hr
    exact List.mem_map.mpr ⟨r, hr, rfl⟩

/-- Witness for C6 over two orderings of a two-record input. -/
theorem etl_partition_determinism_witness :
    (∀ r, List.lookup r (transformPartitions "job-1" ["rec-a", "rec-b"]) =
      List.lookup r (transformPartitions "job-1" ["rec-b", "rec-a"])) ∧
    (∀ r ∈ ["rec-a", "rec-b"], (r, assignPartition "job-1" r) ∈
      transformPartitions "job-1" ["rec-a", "rec-b"]) :=
  etl_partition_determinism "job-1" ["rec-a", "rec-b"] ["rec-b", "rec-a"]
    (by decide)

/-- C7 (modelled from the spec; the decision engine's Python source is not
in the repository): the final recommendation equals the logical OR of the
three trigger flags, the recorded reasons contain one independent reason
for each trigger that is true — all co-occurring reasons, not only the
first — and the reason text is their join. -/
theorem retraining_decision_or_reasons :
    ∀ schedule performance drift : Bool,
      (decide schedule performance drift).RetrainingRecommended =
        (schedule || performance || drift) ∧
      (schedule = true →
        scheduleReason ∈ (decide schedule performance drift).Reasons) ∧
      (performance = true →
        performanceReason ∈ (decide schedule performance drift).Reasons) ∧
      (drift = true →
        driftReason ∈ (decide schedule performance drift).Reasons) ∧
      (decide schedule performance drift).RecommendationReason =
        String.intercalate "; " (decide schedule performance drift).Reasons := by
  intro s p d
  cases s <;> cases p <;> cases d <;>
    refine ⟨rfl, ?_, ?_, ?_, rfl⟩ <;>
      simp [MLPipeline.decide, scheduleReason, performanceReason, driftReason]

/-- Witness for C7 with all three triggers true: all three reasons are
recorded together. -/
theorem retraining_decision_or_reasons_witness :
    (decide true true true).RetrainingRecommended = (true || true || true) ∧
    scheduleReason ∈ (decide true true true).Reasons ∧
    performanceReason ∈ (decide true true true).Reasons ∧
    driftReason ∈ (decide true true true).Reasons ∧
    (decide true true true).RecommendationReason =
      String.intercalate "; " (decide true true true).Reasons :=
  ⟨(retraining_decision_or_reasons true true true).1,
   (retraining_decision_or_reasons true true true).2.1 rfl,
   (retraining_decision_or_reasons true true true).2.2.1 rfl,
   (retraining_decision_or_reasons true true true).2.2.2.1 rfl,
   (retraining_decision_or_reasons true true true).2.2.2.2⟩

end MLPipeline
